import Mathlib

/-!
Verification of the MonAI Agent SDK orchestration core.

This file gives a shallow embedding of the agent orchestration loop of
`src/ai/MonAIAgent.ts` (session initialization, run polling, tool
dispatch, answer extraction) together with the `get_balance` and
`get_token_balance` tools and the `TOKEN` constants table, and proves
theorems about the behaviours the design spec describes.

External collaborators (the remote assistant runtime, `JSON.parse`, the
viem chain clients) are modelled as oracles: records of functions whose
results stand for whatever the remote side returned on the trace under
consideration.  A JavaScript computation that can `throw` is modelled by
`JSResult`, carrying either the produced value or the thrown error's
message.
-/

namespace MonAI

/-- Result of a JS computation: a normal value, or a thrown error carrying
the error's message. -/
inductive JSResult (α : Type) where
  | ok (v : α)
  | thrown (msg : String)
deriving DecidableEq, Repr

/-- Whether a JS computation returned normally. -/
def JSResult.isOk {α : Type} : JSResult α → Bool
  | .ok _ => true
  | .thrown _ => false

/-- JS truthiness of a possibly-`undefined` string (`undefined` and `""`
are falsy). -/
def truthy : Option String → Bool
  | none => false
  | some s => s ≠ ""

/-- JS `a || b` on possibly-`undefined` strings. -/
def jsOrStr (a b : Option String) : Option String :=
  if truthy a then a else b

/-- JS `a || b` where the fallback is a plain string, as in the
constructor defaults (`config.assistantId || ""`). -/
def jsOrDefault (a : Option String) (b : String) : String :=
  if truthy a then a.getD "" else b

/-- A JavaScript value as returned by a tool handler. -/
inductive JSValue where
  | str (s : String)
  | num (n : Int)
  | jsBool (b : Bool)
deriving DecidableEq, Repr

/-- `String(output)` as applied by `handleRunToolCalls` to a handler's
result. -/
def jsStringOf : JSValue → String
  | .str s => s
  | .num n => toString n
  | .jsBool b => if b then "true" else "false"

/-! ## Constants: the `TOKEN` table (src/constants) -/

/-- The `TOKEN` constant: token name to ERC20 address. -/
def TOKEN : List (String × String) :=
  [("WMON", "0x760AfE86e5de5fa0Ee542fc7B7B713e1c5425701"),
   ("MONAI", "0x7348fac1b35be27b0b636f0881afc9449ec54ba5")]

/-- `Object.keys(TOKEN)`. -/
def tokenKeys : List String := TOKEN.map Prod.fst

/-! ## Wallet context and parsed tool arguments -/

/-- The readable part of a viem `WalletClient`: `account?.address`. -/
structure WalletClient where
  accountAddress : Option String
deriving DecidableEq, Repr

/-- `walletClient?.account?.address`. -/
def walletAccountAddress (wc : Option WalletClient) : Option String :=
  wc.bind WalletClient.accountAddress

/-- Parsed JSON arguments of a tool call, as destructured by the two
balance tools (`const { wallet, tokenName } = args`); an absent field is
`none` (JS `undefined`). -/
structure ArgsV where
  wallet : Option String
  tokenName : Option String
deriving DecidableEq, Repr

/-- External blockchain collaborators: the viem public client's
`readContract balanceOf` and `getBalance`, `formatEther`, and
`fetchTokenDecimalsAndFormatAmount`; oracles of the remote chain. -/
structure ChainEnv where
  balanceOf : String → String → JSResult Nat
  formatAmount : String → Nat → JSResult String
  nativeBalance : String → JSResult Nat
  formatEtherF : Nat → String

/-! ## The `get_token_balance` tool (src/tools/token/getTokenBalance.ts) -/

/-- JS `String.prototype.toLowerCase` (character-wise ASCII lowering, as
it acts on the token names in play). -/
def jsToLower (s : String) : String := String.mk (s.data.map Char.toLower)

/-- `Object.keys(TOKEN).find(key => key.toLowerCase() ===
tokenName.toLowerCase())`. -/
def findTokenName (tokenName : String) : Option String :=
  tokenKeys.find? (fun key => jsToLower key == jsToLower tokenName)

/-- The message of the token-not-found error thrown by the
`get_token_balance` handler. -/
def tokenNotFoundMsg (tokenName : String) : String :=
  "Token \"" ++ tokenName ++ "\" not found. Available tokens: " ++
    String.intercalate ", " tokenKeys

/-- The chain-querying tail of the `get_token_balance` handler:
`readContract balanceOf` then `fetchTokenDecimalsAndFormatAmount`. -/
def queryTokenBalance (chain : ChainEnv) (tokenAddress walletAddr : String) :
    JSResult String :=
  match chain.balanceOf tokenAddress walletAddr with
  | .thrown m => .thrown m
  | .ok raw =>
    match chain.formatAmount tokenAddress raw with
    | .thrown m => .thrown m
    | .ok s => .ok s

/-- The body of the `try` block of `getTokenBalanceTool.handler`. -/
def getTokenBalanceInner (chain : ChainEnv) (args : ArgsV)
    (wc : Option WalletClient) : JSResult String :=
  let address := jsOrStr args.wallet (walletAccountAddress wc)
  if ¬ truthy address then
    .thrown "No wallet address provided and no wallet client account available"
  else if ¬ truthy args.tokenName then
    .thrown "Token name is required"
  else
    let tokenName := args.tokenName.getD ""
    match findTokenName tokenName with
    | none => .thrown (tokenNotFoundMsg tokenName)
    | some foundTokenName =>
      let tokenAddress := (TOKEN.lookup foundTokenName).getD ""
      if tokenAddress = "" then
        .thrown ("Token \"" ++ foundTokenName ++ "\" address not found")
      else
        queryTokenBalance chain tokenAddress (address.getD "")

/-- Per-session tool configuration mapping (opaque record, passed through
to every handler unmodified). -/
def EnvCfg := List (String × String)

/-- A registered tool, reduced to its handler (the declared definition is
not consulted by the dispatch loop). -/
structure Tool where
  handler : ArgsV → Option WalletClient → EnvCfg → JSResult JSValue

/-- `getTokenBalanceTool.handler`: the `try` body wrapped by the `catch`
that rethrows `Failed to get token balance: ${error}` (where `${error}`
stringifies an `Error` as `Error: <message>`). -/
def getTokenBalanceToolModel (chain : ChainEnv) : Tool where
  handler := fun args wc _ =>
    match getTokenBalanceInner chain args wc with
    | .ok s => .ok (.str s)
    | .thrown m => .thrown ("Failed to get token balance: Error: " ++ m)

/-! ## The `get_balance` tool (src/tools/token/getBalance.ts) -/

/-- The body of the `try` block of `getBalanceTool.handler`. -/
def getBalanceInner (chain : ChainEnv) (args : ArgsV)
    (wc : Option WalletClient) : JSResult String :=
  let address := jsOrStr args.wallet (walletAccountAddress wc)
  if ¬ truthy address then
    .thrown "No wallet address provided and no wallet client account available"
  else
    match chain.nativeBalance (address.getD "") with
    | .thrown m => .thrown m
    | .ok bal => .ok (chain.formatEtherF bal)

/-- `getBalanceTool.handler` with its `catch` wrapper
(`Failed to get balance: ${error}`). -/
def getBalanceToolModel (chain : ChainEnv) : Tool where
  handler := fun args wc _ =>
    match getBalanceInner chain args wc with
    | .ok s => .ok (.str s)
    | .thrown m => .thrown ("Failed to get balance: Error: " ++ m)

/-- The tool registry returned by `initTools()` (src/tools/tools.ts):
`get_balance` and `get_token_balance`. -/
def initTools (chain : ChainEnv) : String → Option Tool := fun name =>
  if name = "get_balance" then some (getBalanceToolModel chain)
  else if name = "get_token_balance" then some (getTokenBalanceToolModel chain)
  else none

/-! ## Runs and tool dispatch (MonAIAgent.handleRunToolCalls) -/

/-- One pending tool call of a run's required action
(`{id, function: {name, arguments}}`). -/
structure ToolCall where
  id : String
  fname : String
  fargs : String
deriving DecidableEq, Repr

/-- One `{tool_call_id, output}` record submitted back to the runtime. -/
structure ToolOutput where
  tool_call_id : String
  output : String
deriving DecidableEq, Repr

structure SubmitToolOutputs where
  tool_calls : List ToolCall
deriving DecidableEq, Repr

structure RequiredAction where
  rtype : String
  submit_tool_outputs : Option SubmitToolOutputs
deriving DecidableEq, Repr

structure Run where
  id : String
  status : String
  required_action : Option RequiredAction
deriving DecidableEq, Repr

structure ThreadObj where
  id : String
deriving DecidableEq, Repr

/-- Everything one dispatch round reads: the registry snapshot
(`initTools()`), `JSON.parse`, the session's wallet client and tool
configs, and the remote `submitToolOutputsAndPoll` oracle
(thread id → run id → outputs → updated run). -/
structure DispatchEnv where
  tools : String → Option Tool
  parseJSON : String → JSResult ArgsV
  walletClient : Option WalletClient
  toolEnvConfigs : EnvCfg
  submit : String → String → List ToolOutput → Run

/-- Outcome of one mapped callback in `handleRunToolCalls`: either the
`Tool ... not found` log with a `null` result, or a
`{tool_call_id, output}` record. -/
inductive CallOutcome where
  | notFound (logMsg : String)
  | output (o : ToolOutput)
deriving DecidableEq, Repr

/-- The callback mapped over `toolCalls` in `handleRunToolCalls`:
registry lookup, `JSON.parse`, handler invocation; any throw is caught
and turned into an `Error: <message>` output for the same call id. -/
def processToolCall (denv : DispatchEnv) (tc : ToolCall) : CallOutcome :=
  match denv.tools tc.fname with
  | none => .notFound ("Tool " ++ tc.fname ++ " not found")
  | some toolConfig =>
    match denv.parseJSON tc.fargs with
    | .thrown m => .output ⟨tc.id, "Error: " ++ m⟩
    | .ok args =>
      match toolConfig.handler args denv.walletClient denv.toolEnvConfigs with
      | .ok v => .output ⟨tc.id, jsStringOf v⟩
      | .thrown m => .output ⟨tc.id, "Error: " ++ m⟩

def outcomeOutput : CallOutcome → Option ToolOutput
  | .output o => some o
  | .notFound _ => none

def outcomeLog : CallOutcome → Option String
  | .notFound m => some m
  | .output _ => none

/-- The `toolOutputs` list collected from the settled callback results
(fulfilled, non-null values, in call order). -/
def collectOutputs (denv : DispatchEnv) (calls : List ToolCall) : List ToolOutput :=
  (calls.map (processToolCall denv)).filterMap outcomeOutput

/-- The `log.error` messages produced for unknown tools in one round. -/
def collectLogs (denv : DispatchEnv) (calls : List ToolCall) : List String :=
  (calls.map (processToolCall denv)).filterMap outcomeLog

/-- `handleRunToolCalls`: returns the resulting run, paired with
`some outs` when the batch `outs` was submitted and `none` when nothing
was submitted (no pending calls, or an empty collected output set). -/
def handleRunToolCalls (denv : DispatchEnv) (thread : ThreadObj) (run : Run) :
    Run × Option (List ToolOutput) :=
  match run.required_action.bind RequiredAction.submit_tool_outputs with
  | none => (run, none)
  | some sto =>
    if sto.tool_calls.isEmpty then (run, none)
    else
      let outs := collectOutputs denv sto.tool_calls
      if outs.isEmpty then (run, none)
      else (denv.submit thread.id run.id outs, some outs)

/-! ## performRun and sendMessage (MonAIAgent.performRun / sendMessage) -/

/-- A message content block (`{type, text: {value}}`, flattened). -/
structure ContentBlock where
  ctype : String
  text : String
deriving DecidableEq, Repr

structure Message where
  role : String
  content : List ContentBlock
deriving DecidableEq, Repr

/-- Result of `performRun`: the returned text block's value, the `null`
return, or a thrown `TypeError` from accessing a property of
`undefined`. -/
inductive PerformResult where
  | text (v : String)
  | nullResult
  | crash (msg : String)
deriving DecidableEq, Repr

/-- The handling of `messages.data[0]` on a completed run: indexing an
empty list yields `undefined`, whose property access throws. -/
def extractAnswer (messages : List Message) : PerformResult :=
  match messages with
  | [] => .crash "Cannot read properties of undefined"
  | lastMessage :: _ =>
    if lastMessage.role = "assistant" then
      match lastMessage.content with
      | [] => .crash "Cannot read properties of undefined"
      | c :: _ => if c.ctype = "text" then .text c.text else .nullResult
    else .nullResult

/-- The `while requires_action` loop of `performRun`; `fuel` bounds how
far the trace is unrolled (the source loop has no bound of its own). -/
def performRunLoop (denv : DispatchEnv) (thread : ThreadObj) : Nat → Run → Run
  | 0, run => run
  | n + 1, run =>
    if run.status = "requires_action" ∧
        run.required_action.map RequiredAction.rtype = some "submit_tool_outputs" then
      performRunLoop denv thread n (handleRunToolCalls denv thread run).1
    else run

/-- `performRun`: the dispatch loop, then message extraction when the
final status is `completed`; `messages` is the oracle for
`messages.list(thread.id).data`. -/
def performRunModel (denv : DispatchEnv) (thread : ThreadObj)
    (messages : List Message) (fuel : Nat) (run : Run) : PerformResult :=
  let final := performRunLoop denv thread fuel run
  if final.status = "completed" then extractAnswer messages else .nullResult

/-- Outcome of `sendMessage` as seen by its caller. -/
inductive SendResult where
  | answer (s : String)
  | formatError
  | crash (msg : String)
deriving DecidableEq, Repr

/-- The tail of `sendMessage`: return `result.text.value` when the result
is a text block, otherwise throw `Unexpected response format`; a crash
from `performRun` propagates. -/
def sendMessageResult : PerformResult → SendResult
  | .text v => .answer v
  | .nullResult => .formatError
  | .crash m => .crash m

/-- The polling loop of `createRun`: while the status is `in_progress` or
`queued`, sleep and re-fetch; `polls` is the oracle of successive
`runs.retrieve` results.  Returns the final run and the number of status
fetches issued, or `none` when the oracle trace is exhausted while the
run is still transient. -/
def pollLoop (run : Run) (polls : List Run) : Option (Run × Nat) :=
  if run.status = "in_progress" ∨ run.status = "queued" then
    match polls with
    | [] => none
    | p :: rest => (pollLoop p rest).map (fun pr => (pr.1, pr.2 + 1))
  else some (run, 0)

/-! ## Session state and initialization (MonAIAgent constructor / initialize) -/

structure Assistant where
  id : String
deriving DecidableEq, Repr

/-- The remote operations `initialize` can issue. -/
inductive RemoteOp where
  | retrieveAssistant (id : String)
  | createAssistant
  | createThread
  | retrieveThread (id : String)
deriving DecidableEq, Repr

def isRetrieveThreadOp : RemoteOp → Bool
  | .retrieveThread _ => true
  | _ => false

def countRetrieveThread (ops : List RemoteOp) : Nat :=
  (ops.filter isRetrieveThreadOp).length

def countCreateThread (ops : List RemoteOp) : Nat :=
  (ops.filter (fun op => op == RemoteOp.createThread)).length

/-- Oracles for the remote assistant runtime operations used during
initialization. -/
structure AgentEnv where
  retrieveAssistantR : String → JSResult Assistant
  createAssistantR : JSResult Assistant
  createThreadR : JSResult ThreadObj
  retrieveThreadR : String → JSResult ThreadObj

/-- The mutable fields of a `MonAIAgent` instance. -/
structure AgentState where
  assistant : Option Assistant
  thread : Option ThreadObj
  threadID : String
  isInitialized : Bool
  assistantId : String
  prompts : String
deriving DecidableEq, Repr

/-- `MonAIAgentConfig` (the fields the orchestration claims touch). -/
structure MonAIAgentConfig where
  prompts : Option String
  assistantId : Option String
  threadId : Option String
deriving DecidableEq, Repr

/-- The `MonAIAgent` constructor. -/
def mkAgent (config : MonAIAgentConfig) : AgentState where
  assistant := none
  thread := none
  threadID := jsOrDefault config.threadId ""
  isInitialized := false
  assistantId := jsOrDefault config.assistantId ""
  prompts := jsOrDefault config.prompts ""

/-- The thread-resolution step of `initialize`: create a thread when
`this.threadID` is falsy, retrieve it otherwise; on success the
initialization flag is set.  Note the source never assigns the created
thread's id to `this.threadID`. -/
def initThread (env : AgentEnv) (st : AgentState) (ops : List RemoteOp) :
    AgentState × JSResult Unit × List RemoteOp :=
  if st.threadID = "" then
    match env.createThreadR with
    | .ok t =>
      ({ st with thread := some t, isInitialized := true }, .ok (),
        ops ++ [.createThread])
    | .thrown m => (st, .thrown m, ops ++ [.createThread])
  else
    match env.retrieveThreadR st.threadID with
    | .ok t =>
      ({ st with thread := some t, isInitialized := true }, .ok (),
        ops ++ [.retrieveThread st.threadID])
    | .thrown m => (st, .thrown m, ops ++ [.retrieveThread st.threadID])

/-- `MonAIAgent.initialize`: early return when already initialized;
retrieve the assistant and fall back to creating one on failure (when
`this.assistant` is unset; otherwise create directly); then resolve the
thread.  Returns the state after the call, the JS outcome, and the
remote operations issued, in order. -/
def initializeAgent (env : AgentEnv) (st : AgentState) :
    AgentState × JSResult Unit × List RemoteOp :=
  if st.isInitialized then (st, .ok (), [])
  else
    match st.assistant with
    | none =>
      match env.retrieveAssistantR st.assistantId with
      | .ok a =>
        initThread env { st with assistant := some a }
          [.retrieveAssistant st.assistantId]
      | .thrown _ =>
        match env.createAssistantR with
        | .ok a =>
          initThread env { st with assistant := some a, assistantId := a.id }
            [.retrieveAssistant st.assistantId, .createAssistant]
        | .thrown m =>
          (st, .thrown m, [.retrieveAssistant st.assistantId, .createAssistant])
    | some _ =>
      match env.createAssistantR with
      | .ok a =>
        initThread env { st with assistant := some a, assistantId := a.id }
          [.createAssistant]
      | .thrown m => (st, .thrown m, [.createAssistant])

/-! ## Concrete sample oracles (used to instantiate the theorems) -/

/-- A chain oracle on which every remote read succeeds. -/
def chain0 : ChainEnv :=
  ⟨fun _ _ => .ok 0, fun _ _ => .ok "0", fun _ => .ok 0, fun _ => "0"⟩

/-- A wallet client whose account address is `0xabc`. -/
def wc0 : Option WalletClient := some ⟨some "0xabc"⟩

/-- A `JSON.parse` oracle for two fixed argument payloads. -/
def parse0 : String → JSResult ArgsV := fun s =>
  if s = "args-unknown" then .ok ⟨none, some "unknown"⟩
  else if s = "args-empty" then .ok ⟨none, none⟩
  else .thrown "Unexpected token"

/-- A `submitToolOutputsAndPoll` oracle that resumes the run to
`completed`. -/
def submit0 : String → String → List ToolOutput → Run :=
  fun _ rid _ => ⟨rid, "completed", none⟩

/-- A dispatch round over the real registry and the sample oracles. -/
def denv0 : DispatchEnv := ⟨initTools chain0, parse0, wc0, [], submit0⟩

def thread0 : ThreadObj := ⟨"thread_1"⟩

/-- A `get_token_balance` call whose parsed arguments carry
`tokenName: "unknown"`. -/
def tcUnknown : ToolCall := ⟨"call_1", "get_token_balance", "args-unknown"⟩

/-- A tool whose handler always throws with message `boom`. -/
def boomTool : Tool := ⟨fun _ _ _ => .thrown "boom"⟩

def tcBoom : ToolCall := ⟨"call_X", "boom_tool", "args-empty"⟩

/-- A registry holding only the throwing tool. -/
def denvBoom : DispatchEnv :=
  ⟨fun n => if n = "boom_tool" then some boomTool else none, parse0, wc0, [], submit0⟩

/-- A run pending on a single call to an unregistered tool. -/
def runStuck : Run :=
  ⟨"run_1", "requires_action",
    some ⟨"submit_tool_outputs", some ⟨[⟨"call_9", "no_such_tool", "args-empty"⟩]⟩⟩⟩

/-- A run pending on the throwing tool. -/
def runBoom : Run :=
  ⟨"run_3", "requires_action", some ⟨"submit_tool_outputs", some ⟨[tcBoom]⟩⟩⟩

/-- A remote runtime oracle: assistant retrieval fails, creations
succeed, thread retrieval echoes the requested id. -/
def env0 : AgentEnv :=
  ⟨fun _ => .thrown "404", .ok ⟨"asst_1"⟩, .ok ⟨"thread_1"⟩, fun tid => .ok ⟨tid⟩⟩

/-! ## Helper lemmas about tool dispatch -/

/-- A call produces an output exactly when its tool is registered. -/
lemma outcomeOutput_processToolCall_isSome (denv : DispatchEnv) (tc : ToolCall) :
    (outcomeOutput (processToolCall denv tc)).isSome = (denv.tools tc.fname).isSome := by
  unfold processToolCall
  cases h : denv.tools tc.fname with
  | none => simp [outcomeOutput]
  | some t =>
    cases hp : denv.parseJSON tc.fargs with
    | thrown m => simp [outcomeOutput]
    | ok args =>
      cases hh : t.handler args denv.walletClient denv.toolEnvConfigs <;>
        simp [outcomeOutput, hh]

lemma outcomeLog_processToolCall_isSome (denv : DispatchEnv) (tc : ToolCall) :
    (outcomeLog (processToolCall denv tc)).isSome = (denv.tools tc.fname).isNone := by
  unfold processToolCall
  cases h : denv.tools tc.fname with
  | none => simp [outcomeLog]
  | some t =>
    cases hp : denv.parseJSON tc.fargs with
    | thrown m => simp [outcomeLog]
    | ok args =>
      cases hh : t.handler args denv.walletClient denv.toolEnvConfigs <;>
        simp [outcomeLog, hh]

lemma collectOutputs_length (denv : DispatchEnv) (calls : List ToolCall) :
    (collectOutputs denv calls).length =
      (calls.filter (fun tc => (denv.tools tc.fname).isSome)).length := by
  induction calls with
  | nil => rfl
  | cons tc rest ih =>
    have h := outcomeOutput_processToolCall_isSome denv tc
    simp only [collectOutputs, List.map_cons, List.filterMap_cons, List.filter_cons] at *
    cases ho : outcomeOutput (processToolCall denv tc) with
    | none => rw [ho] at h; simp only [Option.isSome_none] at h; rw [← h]; simpa using ih
    | some o =>
      rw [ho] at h; simp only [Option.isSome_some] at h; rw [← h]
      simpa using ih

lemma collectLogs_length (denv : DispatchEnv) (calls : List ToolCall) :
    (collectLogs denv calls).length =
      (calls.filter (fun tc => (denv.tools tc.fname).isNone)).length := by
  induction calls with
  | nil => rfl
  | cons tc rest ih =>
    have h := outcomeLog_processToolCall_isSome denv tc
    simp only [collectLogs, List.map_cons, List.filterMap_cons, List.filter_cons] at *
    cases ho : outcomeLog (processToolCall denv tc) with
    | none => rw [ho] at h; simp only [Option.isSome_none] at h; rw [← h]; simpa using ih
    | some o =>
      rw [ho] at h; simp only [Option.isSome_some] at h; rw [← h]
      simpa using ih

/-- An output produced for a call of the round is in the collected list. -/
lemma mem_collectOutputs_of_processToolCall (denv : DispatchEnv) (calls : List ToolCall)
    (tc : ToolCall) (o : ToolOutput) (hmem : tc ∈ calls)
    (h : processToolCall denv tc = .output o) : o ∈ collectOutputs denv calls := by
  unfold collectOutputs
  rw [List.mem_filterMap]
  exact ⟨processToolCall denv tc, List.mem_map_of_mem _ hmem, by rw [h]; rfl⟩

/-- When the round has calls and the collected outputs are non-empty,
`handleRunToolCalls` submits exactly the collected outputs. -/
lemma handleRunToolCalls_submits (denv : DispatchEnv) (thread : ThreadObj) (run : Run)
    (rtype : String) (calls : List ToolCall)
    (hra : run.required_action = some ⟨rtype, some ⟨calls⟩⟩)
    (hcalls : calls ≠ []) (houts : collectOutputs denv calls ≠ []) :
    handleRunToolCalls denv thread run =
      (denv.submit thread.id run.id (collectOutputs denv calls),
        some (collectOutputs denv calls)) := by
  simp only [handleRunToolCalls, hra, Option.some_bind]
  rw [if_neg (by simpa using hcalls), if_neg (by simpa using houts)]

/-- With every requested tool unknown, no outputs are collected. -/
lemma collectOutputs_eq_nil_of_unknown (denv : DispatchEnv) (calls : List ToolCall)
    (h : ∀ tc ∈ calls, denv.tools tc.fname = none) :
    collectOutputs denv calls = [] := by
  induction calls with
  | nil => rfl
  | cons tc rest ih =>
    have htc := h tc (List.mem_cons_self tc rest)
    simp only [collectOutputs, List.map_cons, List.filterMap_cons]
    rw [processToolCall, htc]
    simp only [outcomeOutput]
    exact ih (fun tc2 hm => h tc2 (List.mem_cons_of_mem _ hm))

/-! ## Helper lemmas about initialization -/

lemma initThread_ok_flag (env : AgentEnv) (st : AgentState) (ops : List RemoteOp)
    (h : ((initThread env st ops).2.1).isOk = true) :
    ((initThread env st ops).1).isInitialized = true := by
  by_cases ht : st.threadID = ""
  · cases hc : env.createThreadR with
    | ok t => simp [initThread, ht, hc]
    | thrown m => simp [initThread, ht, hc, JSResult.isOk] at h
  · cases hr : env.retrieveThreadR st.threadID with
    | ok t => simp [initThread, ht, hr]
    | thrown m => simp [initThread, ht, hr, JSResult.isOk] at h

lemma initializeAgent_ok_flag (env : AgentEnv) (st : AgentState)
    (h : ((initializeAgent env st).2.1).isOk = true) :
    ((initializeAgent env st).1).isInitialized = true := by
  by_cases hi : st.isInitialized
  · simp [initializeAgent, hi]
  · cases ha : st.assistant with
    | none =>
      cases hr : env.retrieveAssistantR st.assistantId with
      | ok a =>
        simp only [initializeAgent, hi, if_neg, ha, hr] at h ⊢
        exact initThread_ok_flag _ _ _ h
      | thrown m =>
        cases hc : env.createAssistantR with
        | ok a =>
          simp only [initializeAgent, hi, if_neg, ha, hr, hc] at h ⊢
          exact initThread_ok_flag _ _ _ h
        | thrown m2 => simp [initializeAgent, hi, ha, hr, hc, JSResult.isOk] at h
    | some a0 =>
      cases hc : env.createAssistantR with
      | ok a =>
        simp only [initializeAgent, hi, if_neg, ha, hc] at h ⊢
        exact initThread_ok_flag _ _ _ h
      | thrown m => simp [initializeAgent, hi, ha, hc, JSResult.isOk] at h

/-- Unfolding `pollLoop` on a transient status. -/
lemma pollLoop_cons_transient (run p : Run) (rest : List Run)
    (h : run.status = "in_progress" ∨ run.status = "queued") :
    pollLoop run (p :: rest) = (pollLoop p rest).map (fun pr => (pr.1, pr.2 + 1)) := by
  rw [pollLoop.eq_def, if_pos h]

/-- `pollLoop` stops, fetching nothing, on a non-transient status. -/
lemma pollLoop_terminal (run : Run) (polls : List Run)
    (h : ¬ (run.status = "in_progress" ∨ run.status = "queued")) :
    pollLoop run polls = some (run, 0) := by
  rw [pollLoop.eq_def, if_neg h]

/-! ## Claim theorems -/

/-- C3: in one dispatch round, the number of outputs collected for
submission equals the number of requests whose tool name is present in
the registry at dispatch time; each request whose tool name is absent
yields a logged failure and no output, and an absent tool name is the
only way a request contributes no output. -/
theorem dispatch_output_count_eq_registered (denv : DispatchEnv) (calls : List ToolCall) :
    (collectOutputs denv calls).length =
      (calls.filter (fun tc => (denv.tools tc.fname).isSome)).length ∧
    (collectLogs denv calls).length =
      (calls.filter (fun tc => (denv.tools tc.fname).isNone)).length ∧
    (∀ tc, denv.tools tc.fname = none →
      processToolCall denv tc = .notFound ("Tool " ++ tc.fname ++ " not found")) ∧
    (∀ tc, outcomeOutput (processToolCall denv tc) = none ↔ denv.tools tc.fname = none) := by
  refine ⟨collectOutputs_length denv calls, collectLogs_length denv calls, ?_, ?_⟩
  · intro tc h
    simp [processToolCall, h]
  · intro tc
    constructor
    · intro h
      cases ht : denv.tools tc.fname with
      | none => rfl
      | some t =>
        have hs := outcomeOutput_processToolCall_isSome denv tc
        rw [h, ht] at hs
        simp at hs
    · intro h
      simp [processToolCall, h, outcomeOutput]

/-- Witness for C3: a round with one registered and one unregistered
call collects exactly one output. -/
theorem dispatch_output_count_eq_registered_witness :
    (collectOutputs denv0 [tcUnknown, ⟨"call_2", "nope", "args-empty"⟩]).length =
      (([tcUnknown, ⟨"call_2", "nope", "args-empty"⟩] : List ToolCall).filter
        (fun tc => (denv0.tools tc.fname).isSome)).length :=
  (dispatch_output_count_eq_registered denv0 [tcUnknown, ⟨"call_2", "nope", "args-empty"⟩]).1

/-- C4: when the collected output set of a round is empty (for instance
every requested tool name is unknown), `handleRunToolCalls` submits
nothing and returns the run unchanged, and the `performRun` loop makes
no progress on such a run no matter how far it is unrolled. -/
theorem empty_outputs_returns_run_unchanged
    (denv : DispatchEnv) (thread : ThreadObj) (run : Run) (rt : String)
    (calls : List ToolCall)
    (hra : run.required_action = some ⟨rt, some ⟨calls⟩⟩)
    (_hstatus : run.status = "requires_action")
    (hunknown : ∀ tc ∈ calls, denv.tools tc.fname = none) :
    handleRunToolCalls denv thread run = (run, none) ∧
    ∀ fuel, performRunLoop denv thread fuel run = run := by
  have hnil := collectOutputs_eq_nil_of_unknown denv calls hunknown
  have hmain : handleRunToolCalls denv thread run = (run, none) := by
    simp only [handleRunToolCalls, hra, Option.some_bind]
    by_cases hc : calls.isEmpty
    · rw [if_pos hc]
    · rw [if_neg hc]
      simp [hnil]
  refine ⟨hmain, ?_⟩
  intro fuel
  induction fuel with
  | zero => rfl
  | succ n ih =>
    simp only [performRunLoop]
    split
    · rw [hmain]
      exact ih
    · rfl

/-- Witness for C4: a round whose only call names an unknown tool leaves
the run unchanged and unsubmitted, with the loop stuck on it. -/
theorem empty_outputs_returns_run_unchanged_witness :
    handleRunToolCalls denv0 thread0 runStuck = (runStuck, none) ∧
    performRunLoop denv0 thread0 3 runStuck = runStuck :=
  ⟨(empty_outputs_returns_run_unchanged denv0 thread0 runStuck "submit_tool_outputs"
      [⟨"call_9", "no_such_tool", "args-empty"⟩] rfl rfl
      (by intro tc hm; simp only [List.mem_singleton] at hm; subst hm; rfl)).1,
   (empty_outputs_returns_run_unchanged denv0 thread0 runStuck "submit_tool_outputs"
      [⟨"call_9", "no_such_tool", "args-empty"⟩] rfl rfl
      (by intro tc hm; simp only [List.mem_singleton] at hm; subst hm; rfl)).2 3⟩

/-- C5: a registered call with identity `X` whose handler returns `V`
contributes the output `String(V)` for `X`; one whose handler throws
`boom` contributes `Error: boom` for `X`; in both cases the round
submits, and every sibling call's produced output is collected and
submitted regardless of this handler's success or failure. -/
theorem tool_call_roundtrip_isolated
    (denv : DispatchEnv) (thread : ThreadObj) (t : Tool) (tc : ToolCall)
    (args : ArgsV) (calls : List ToolCall) (run : Run) (rt : String)
    (hreg : denv.tools tc.fname = some t)
    (hparse : denv.parseJSON tc.fargs = .ok args)
    (hmem : tc ∈ calls)
    (hra : run.required_action = some ⟨rt, some ⟨calls⟩⟩) :
    (∀ v, t.handler args denv.walletClient denv.toolEnvConfigs = .ok v →
      processToolCall denv tc = .output ⟨tc.id, jsStringOf v⟩ ∧
      ∃ outs, (handleRunToolCalls denv thread run).2 = some outs ∧
        (⟨tc.id, jsStringOf v⟩ : ToolOutput) ∈ outs ∧
        ∀ tc2 ∈ calls, ∀ o2, processToolCall denv tc2 = .output o2 → o2 ∈ outs) ∧
    (t.handler args denv.walletClient denv.toolEnvConfigs = .thrown "boom" →
      processToolCall denv tc = .output ⟨tc.id, "Error: boom"⟩ ∧
      ∃ outs, (handleRunToolCalls denv thread run).2 = some outs ∧
        (⟨tc.id, "Error: boom"⟩ : ToolOutput) ∈ outs ∧
        ∀ tc2 ∈ calls, ∀ o2, processToolCall denv tc2 = .output o2 → o2 ∈ outs) := by
  have main : ∀ o, processToolCall denv tc = .output o →
      ∃ outs, (handleRunToolCalls denv thread run).2 = some outs ∧ o ∈ outs ∧
        ∀ tc2 ∈ calls, ∀ o2, processToolCall denv tc2 = .output o2 → o2 ∈ outs := by
    intro o ho
    have hmemo := mem_collectOutputs_of_processToolCall denv calls tc o hmem ho
    have hcalls : calls ≠ [] := by
      intro hn
      rw [hn] at hmem
      exact (List.not_mem_nil tc) hmem
    have houts : collectOutputs denv calls ≠ [] := by
      intro hn
      rw [hn] at hmemo
      exact (List.not_mem_nil o) hmemo
    rw [handleRunToolCalls_submits denv thread run rt calls hra hcalls houts]
    exact ⟨collectOutputs denv calls, rfl, hmemo,
      fun tc2 hm2 o2 ho2 => mem_collectOutputs_of_processToolCall denv calls tc2 o2 hm2 ho2⟩
  constructor
  · intro v hv
    have hp : processToolCall denv tc = .output ⟨tc.id, jsStringOf v⟩ := by
      simp [processToolCall, hreg, hparse, hv]
    exact ⟨hp, main _ hp⟩
  · intro hv
    have hp : processToolCall denv tc = .output ⟨tc.id, "Error: boom"⟩ := by
      simp [processToolCall, hreg, hparse, hv]
    exact ⟨hp, main _ hp⟩

/-- Witness for C5: a handler that throws `boom` yields the submitted
output `Error: boom` for its call id, and the round submits. -/
theorem tool_call_roundtrip_isolated_witness :
    processToolCall denvBoom tcBoom = .output ⟨"call_X", "Error: boom"⟩ ∧
    (handleRunToolCalls denvBoom thread0 runBoom).2 =
      some [(⟨"call_X", "Error: boom"⟩ : ToolOutput)] :=
  ⟨((tool_call_roundtrip_isolated denvBoom thread0 boomTool tcBoom ⟨none, none⟩
      [tcBoom] runBoom "submit_tool_outputs" rfl rfl (List.mem_singleton_self _) rfl).2
      rfl).1,
   rfl⟩

/-- C6: `initialize()` is idempotent: after a call that completes
successfully, a second call (against any remote oracle) issues no remote
operation and leaves the session state unchanged. -/
theorem initialize_idempotent_second_call (env env2 : AgentEnv) (st : AgentState)
    (hok : ((initializeAgent env st).2.1).isOk = true) :
    initializeAgent env2 ((initializeAgent env st).1) =
      ((initializeAgent env st).1, .ok (), []) := by
  have hflag := initializeAgent_ok_flag env st hok
  generalize hX : (initializeAgent env st).1 = X at hflag ⊢
  simp [initializeAgent, hflag]

/-- Witness for C6: a concrete second call after a successful first
initialization is a no-op with an empty remote-operation trace. -/
theorem initialize_idempotent_second_call_witness :
    initializeAgent env0 ((initializeAgent env0 (mkAgent ⟨none, none, none⟩)).1) =
      ((initializeAgent env0 (mkAgent ⟨none, none, none⟩)).1, .ok (), []) :=
  initialize_idempotent_second_call env0 env0 (mkAgent ⟨none, none, none⟩) rfl

/-- C7: during a successful `initialize()` of a freshly constructed
agent, a construction-supplied thread identity leads to exactly one
thread retrieval and no thread creation, and an absent thread identity
leads to exactly one thread creation and no retrieval. -/
theorem initialize_thread_resolution (env : AgentEnv) (cfg : MonAIAgentConfig)
    (hok : ((initializeAgent env (mkAgent cfg)).2.1).isOk = true) :
    ((mkAgent cfg).threadID ≠ "" →
      countRetrieveThread (initializeAgent env (mkAgent cfg)).2.2 = 1 ∧
      countCreateThread (initializeAgent env (mkAgent cfg)).2.2 = 0) ∧
    ((mkAgent cfg).threadID = "" →
      countCreateThread (initializeAgent env (mkAgent cfg)).2.2 = 1 ∧
      countRetrieveThread (initializeAgent env (mkAgent cfg)).2.2 = 0) := by
  have hmk1 : (mkAgent cfg).isInitialized = false := rfl
  have hmk2 : (mkAgent cfg).assistant = none := rfl
  cases hr : env.retrieveAssistantR (mkAgent cfg).assistantId with
  | ok a =>
    by_cases ht : (mkAgent cfg).threadID = ""
    · cases hct : env.createThreadR with
      | ok t =>
        simp [initializeAgent, hmk1, hmk2, hr, initThread, ht, hct,
          countCreateThread, countRetrieveThread, isRetrieveThreadOp]
      | thrown m =>
        simp [initializeAgent, hmk1, hmk2, hr, initThread, ht, hct,
          JSResult.isOk] at hok
    · cases hrt : env.retrieveThreadR (mkAgent cfg).threadID with
      | ok t =>
        simp [initializeAgent, hmk1, hmk2, hr, initThread, ht, hrt,
          countCreateThread, countRetrieveThread, isRetrieveThreadOp]
      | thrown m =>
        simp [initializeAgent, hmk1, hmk2, hr, initThread, ht, hrt,
          JSResult.isOk] at hok
  | thrown m0 =>
    cases hc : env.createAssistantR with
    | ok a =>
      by_cases ht : (mkAgent cfg).threadID = ""
      · cases hct : env.createThreadR with
        | ok t =>
          simp [initializeAgent, hmk1, hmk2, hr, hc, initThread, ht, hct,
            countCreateThread, countRetrieveThread, isRetrieveThreadOp]
        | thrown m =>
          simp [initializeAgent, hmk1, hmk2, hr, hc, initThread, ht, hct,
            JSResult.isOk] at hok
      · cases hrt : env.retrieveThreadR (mkAgent cfg).threadID with
        | ok t =>
          simp [initializeAgent, hmk1, hmk2, hr, hc, initThread, ht, hrt,
            countCreateThread, countRetrieveThread, isRetrieveThreadOp]
        | thrown m =>
          simp [initializeAgent, hmk1, hmk2, hr, hc, initThread, ht, hrt,
            JSResult.isOk] at hok
    | thrown m1 =>
      simp [initializeAgent, hmk1, hmk2, hr, hc, JSResult.isOk] at hok

/-- Witness for C7: with no thread identity supplied at construction, a
successful initialization creates exactly one thread and retrieves
none. -/
theorem initialize_thread_resolution_witness :
    countCreateThread (initializeAgent env0 (mkAgent ⟨none, none, none⟩)).2.2 = 1 ∧
    countRetrieveThread (initializeAgent env0 (mkAgent ⟨none, none, none⟩)).2.2 = 0 :=
  (initialize_thread_resolution env0 ⟨none, none, none⟩ rfl).2 rfl

/-- C1 (code evaluation): a successfully initialized session constructed
without a thread identity has its initialization flag set but its
`threadID` field still empty — the created thread's identity is never
written back to the session's thread identity string. -/
theorem initialize_leaves_threadID_empty :
    initializeAgent env0 (mkAgent ⟨none, none, none⟩) =
      ({ assistant := some ⟨"asst_1"⟩, thread := some ⟨"thread_1"⟩, threadID := "",
         isInitialized := true, assistantId := "asst_1", prompts := "" },
       .ok (), [.retrieveAssistant "", .createAssistant, .createThread]) := rfl

/-- C8: a run polled as `queued`, then `in_progress`, then `completed`
terminates the polling loop with exactly two status fetches, no fetch
being issued after `completed` is observed (any further oracle entries
are unread), and the `sendMessage` flow then extracts exactly one text
answer from that run. -/
theorem polling_terminates_on_completed
    (r0 r1 r2 : Run) (tail : List Run) (denv : DispatchEnv) (thread : ThreadObj)
    (m : Message) (rest : List Message) (c : ContentBlock) (cs : List ContentBlock)
    (h0 : r0.status = "queued") (h1 : r1.status = "in_progress")
    (h2 : r2.status = "completed")
    (hrole : m.role = "assistant") (hc : m.content = c :: cs) (hct : c.ctype = "text") :
    pollLoop r0 (r1 :: r2 :: tail) = some (r2, 2) ∧
    ∀ fuel, sendMessageResult (performRunModel denv thread (m :: rest) fuel r2) =
      .answer c.text := by
  constructor
  · rw [pollLoop_cons_transient r0 r1 (r2 :: tail) (Or.inr h0),
      pollLoop_cons_transient r1 r2 tail (Or.inl h1),
      pollLoop_terminal r2 tail (by rw [h2]; simp)]
    rfl
  · intro fuel
    have hloop : performRunLoop denv thread fuel r2 = r2 := by
      cases fuel with
      | zero => rfl
      | succ n =>
        simp only [performRunLoop]
        rw [if_neg (by rw [h2]; simp)]
    have hE : extractAnswer (m :: rest) = .text c.text := by
      simp [extractAnswer, hrole, hc, hct]
    simp [performRunModel, hloop, h2, hE, sendMessageResult]

/-- Witness for C8: a concrete `queued → in_progress → completed` trace
is fetched exactly twice and yields the answer text. -/
theorem polling_terminates_on_completed_witness :
    pollLoop ⟨"r", "queued", none⟩
        [⟨"r", "in_progress", none⟩, ⟨"r", "completed", none⟩, ⟨"r", "cancelled", none⟩] =
      some (⟨"r", "completed", none⟩, 2) ∧
    sendMessageResult (performRunModel denv0 thread0 [⟨"assistant", [⟨"text", "hi"⟩]⟩] 5
        ⟨"r", "completed", none⟩) = .answer "hi" :=
  ⟨(polling_terminates_on_completed ⟨"r", "queued", none⟩ ⟨"r", "in_progress", none⟩
      ⟨"r", "completed", none⟩ [⟨"r", "cancelled", none⟩] denv0 thread0
      ⟨"assistant", [⟨"text", "hi"⟩]⟩ [] ⟨"text", "hi"⟩ [] rfl rfl rfl rfl rfl rfl).1,
   (polling_terminates_on_completed ⟨"r", "queued", none⟩ ⟨"r", "in_progress", none⟩
      ⟨"r", "completed", none⟩ [⟨"r", "cancelled", none⟩] denv0 thread0
      ⟨"assistant", [⟨"text", "hi"⟩]⟩ [] ⟨"text", "hi"⟩ [] rfl rfl rfl rfl rfl rfl).2 5⟩

/-- C9 (counterexample to the claim as stated): on a completed run with
an empty message list, `sendMessage` does not fail with the
`Unexpected response format` error — it crashes with a property access
on `undefined` (`messages.data[0]` is `undefined` and `.role` throws). -/
theorem empty_messages_crashes_not_format_error :
    sendMessageResult (performRunModel denv0 thread0 [] 1 ⟨"run_9", "completed", none⟩) =
      .crash "Cannot read properties of undefined" ∧
    sendMessageResult (performRunModel denv0 thread0 [] 1 ⟨"run_9", "completed", none⟩) ≠
      .formatError := by
  constructor
  · rfl
  · intro h
    exact SendResult.noConfusion ((rfl :
      sendMessageResult (performRunModel denv0 thread0 [] 1 ⟨"run_9", "completed", none⟩) =
        .crash "Cannot read properties of undefined").symm.trans h)

/-- C9 (amended): on a completed run, an assistant-authored first message
with a textual first content block yields that text; a present first
message with a wrong role, or an assistant message whose first content
block is non-textual, yields the `Unexpected response format` failure;
an empty message list (or an assistant message with no content blocks)
instead crashes with a property access on `undefined`. -/
theorem completed_answer_extraction
    (denv : DispatchEnv) (thread : ThreadObj) (fuel : Nat) (run : Run)
    (msgs : List Message) (hstatus : run.status = "completed") :
    (∀ m rest c cs, msgs = m :: rest → m.role = "assistant" → m.content = c :: cs →
      c.ctype = "text" →
      sendMessageResult (performRunModel denv thread msgs fuel run) = .answer c.text) ∧
    (∀ m rest c cs, msgs = m :: rest → m.role = "assistant" → m.content = c :: cs →
      c.ctype ≠ "text" →
      sendMessageResult (performRunModel denv thread msgs fuel run) = .formatError) ∧
    (∀ m rest, msgs = m :: rest → m.role ≠ "assistant" →
      sendMessageResult (performRunModel denv thread msgs fuel run) = .formatError) ∧
    (msgs = [] →
      sendMessageResult (performRunModel denv thread msgs fuel run) =
        .crash "Cannot read properties of undefined") ∧
    (∀ m rest, msgs = m :: rest → m.role = "assistant" → m.content = [] →
      sendMessageResult (performRunModel denv thread msgs fuel run) =
        .crash "Cannot read properties of undefined") := by
  have hloop : performRunLoop denv thread fuel run = run := by
    cases fuel with
    | zero => rfl
    | succ n =>
      simp only [performRunLoop]
      rw [if_neg (by rw [hstatus]; simp)]
  have hmodel : performRunModel denv thread msgs fuel run = extractAnswer msgs := by
    simp [performRunModel, hloop, hstatus]
  refine ⟨?_, ?_, ?_, ?_, ?_⟩
  · intro m rest c cs hm hrole hcont hct
    subst hm
    simp [hmodel, extractAnswer, hrole, hcont, hct, sendMessageResult]
  · intro m rest c cs hm hrole hcont hct
    subst hm
    simp [hmodel, extractAnswer, hrole, hcont, hct, sendMessageResult]
  · intro m rest hm hrole
    subst hm
    simp [hmodel, extractAnswer, hrole, sendMessageResult]
  · intro hm
    subst hm
    simp [hmodel, extractAnswer, sendMessageResult]
  · intro m rest hm hrole hcont
    subst hm
    simp [hmodel, extractAnswer, hrole, hcont, sendMessageResult]

/-- Witness for the amended C9: a completed run with an
assistant-authored text message yields the answer. -/
theorem completed_answer_extraction_witness :
    sendMessageResult (performRunModel denv0 thread0 [⟨"assistant", [⟨"text", "ok"⟩]⟩] 2
        ⟨"run_8", "completed", none⟩) = .answer "ok" :=
  (completed_answer_extraction denv0 thread0 2 ⟨"run_8", "completed", none⟩
      [⟨"assistant", [⟨"text", "ok"⟩]⟩] rfl).1 ⟨"assistant", [⟨"text", "ok"⟩]⟩ []
    ⟨"text", "ok"⟩ [] rfl rfl rfl rfl

/-- C2 (counterexample to the claim as stated): the output submitted for
a `get_token_balance` call with `tokenName: "unknown"` is the
doubly-wrapped message produced by the handler's catch-all rethrow, not
the bare `Error: Token "unknown" not found ...` string the claim
states. -/
theorem token_balance_unknown_output_ne_claimed :
    processToolCall denv0 tcUnknown =
      .output ⟨"call_1",
        "Error: Failed to get token balance: Error: Token \"unknown\" not found. Available tokens: WMON, MONAI"⟩ ∧
    processToolCall denv0 tcUnknown ≠
      .output ⟨"call_1", "Error: Token \"unknown\" not found. Available tokens: WMON, MONAI"⟩ := by
  constructor
  · decide
  · decide

/-- C2 (amended): a dispatch round over the real registry containing a
`get_token_balance` call whose parsed arguments carry
`tokenName: "unknown"` (with a resolvable wallet address) submits, for
that call's identity, the output
`Error: Failed to get token balance: Error: Token "unknown" not found.
Available tokens: WMON, MONAI`, and the round still submits its batch —
the run is not aborted by that call. -/
theorem token_balance_unknown_output_wrapped
    (chain : ChainEnv) (parse : String → JSResult ArgsV) (wc : Option WalletClient)
    (cfgs : EnvCfg) (subm : String → String → List ToolOutput → Run)
    (thread : ThreadObj) (tc : ToolCall) (w : Option String) (run : Run)
    (calls : List ToolCall) (rt : String)
    (hname : tc.fname = "get_token_balance")
    (hparse : parse tc.fargs = .ok ⟨w, some "unknown"⟩)
    (haddr : truthy (jsOrStr w (walletAccountAddress wc)) = true)
    (hmem : tc ∈ calls)
    (hra : run.required_action = some ⟨rt, some ⟨calls⟩⟩) :
    processToolCall ⟨initTools chain, parse, wc, cfgs, subm⟩ tc =
      .output ⟨tc.id,
        "Error: Failed to get token balance: Error: Token \"unknown\" not found. Available tokens: WMON, MONAI"⟩ ∧
    ∃ outs,
      (handleRunToolCalls ⟨initTools chain, parse, wc, cfgs, subm⟩ thread run).2 =
        some outs ∧
      (⟨tc.id,
        "Error: Failed to get token balance: Error: Token \"unknown\" not found. Available tokens: WMON, MONAI"⟩ :
        ToolOutput) ∈ outs := by
  have hf : findTokenName "unknown" = none := by decide
  have ht2 : truthy (some "unknown") = true := by decide
  have hinner : getTokenBalanceInner chain ⟨w, some "unknown"⟩ wc =
      .thrown (tokenNotFoundMsg "unknown") := by
    simp [getTokenBalanceInner, haddr, hf, ht2]
  have hhandler :
      (getTokenBalanceToolModel chain).handler ⟨w, some "unknown"⟩ wc cfgs =
        .thrown ("Failed to get token balance: Error: " ++ tokenNotFoundMsg "unknown") := by
    simp [getTokenBalanceToolModel, hinner]
  have hstr :
      ("Error: " ++ ("Failed to get token balance: Error: " ++ tokenNotFoundMsg "unknown")) =
        "Error: Failed to get token balance: Error: Token \"unknown\" not found. Available tokens: WMON, MONAI" := by
    decide
  have hout : processToolCall ⟨initTools chain, parse, wc, cfgs, subm⟩ tc =
      .output ⟨tc.id,
        "Error: Failed to get token balance: Error: Token \"unknown\" not found. Available tokens: WMON, MONAI"⟩ := by
    rw [← hstr]
    simp [processToolCall, initTools, hname, hparse, hhandler]
  refine ⟨hout, ?_⟩
  have hmemo := mem_collectOutputs_of_processToolCall
    ⟨initTools chain, parse, wc, cfgs, subm⟩ calls tc _ hmem hout
  have hcalls : calls ≠ [] := fun hn => (List.not_mem_nil tc) (hn ▸ hmem)
  have houts : collectOutputs ⟨initTools chain, parse, wc, cfgs, subm⟩ calls ≠ [] :=
    fun hn => (List.not_mem_nil _) (hn ▸ hmemo)
  rw [handleRunToolCalls_submits ⟨initTools chain, parse, wc, cfgs, subm⟩ thread run
    rt calls hra hcalls houts]
  exact ⟨_, rfl, hmemo⟩

/-- Witness for the amended C2: the concrete unknown-token call produces
the doubly-wrapped output. -/
theorem token_balance_unknown_output_wrapped_witness :
    processToolCall ⟨initTools chain0, parse0, wc0, [], submit0⟩ tcUnknown =
      .output ⟨"call_1",
        "Error: Failed to get token balance: Error: Token \"unknown\" not found. Available tokens: WMON, MONAI"⟩ :=
  (token_balance_unknown_output_wrapped chain0 parse0 wc0 [] submit0 thread0 tcUnknown
    none ⟨"run_4", "requires_action", some ⟨"submit_tool_outputs", some ⟨[tcUnknown]⟩⟩⟩
    [tcUnknown] "submit_tool_outputs" rfl rfl (by decide)
    (List.mem_singleton_self _) rfl).1

/-- C10: token name resolution in the `get_token_balance` handler is
case-insensitive: a `tokenName` matching a registered token name up to
letter case resolves to that registered name, whose address the handler
then queries the chain with; and when no registered name matches even
case-insensitively, the handler raises the token-not-found error. -/
theorem token_resolution_case_insensitive
    (chain : ChainEnv) (args : ArgsV) (wc : Option WalletClient) (tokenName : String)
    (htn : args.tokenName = some tokenName)
    (haddr : truthy (jsOrStr args.wallet (walletAccountAddress wc)) = true) :
    (∀ k ∈ tokenKeys, jsToLower k = jsToLower tokenName →
      ∃ k2 addr, findTokenName tokenName = some k2 ∧ k2 ∈ tokenKeys ∧
        jsToLower k2 = jsToLower tokenName ∧ TOKEN.lookup k2 = some addr ∧ addr ≠ "" ∧
        getTokenBalanceInner chain args wc =
          queryTokenBalance chain addr
            ((jsOrStr args.wallet (walletAccountAddress wc)).getD "")) ∧
    ((∀ k ∈ tokenKeys, jsToLower k ≠ jsToLower tokenName) → tokenName ≠ "" →
      getTokenBalanceInner chain args wc = .thrown (tokenNotFoundMsg tokenName)) := by
  constructor
  · intro k hk hlow
    have hsome : (findTokenName tokenName).isSome := by
      rw [findTokenName, List.find?_isSome]
      exact ⟨k, hk, by simp [hlow]⟩
    obtain ⟨k2, hk2⟩ := Option.isSome_iff_exists.mp hsome
    have hk2f : tokenKeys.find? (fun key => jsToLower key == jsToLower tokenName) =
        some k2 := hk2
    have hk2p : jsToLower k2 = jsToLower tokenName := by
      have := List.find?_some hk2f
      simpa using this
    have hk2mem : k2 ∈ tokenKeys := List.mem_of_find?_eq_some hk2f
    have hne : tokenName ≠ "" := by
      intro h0
      subst h0
      have hcases : k = "WMON" ∨ k = "MONAI" := by
        simpa [tokenKeys, TOKEN] using hk
      rcases hcases with h | h <;> subst h <;> revert hlow <;> decide
    have haddr2 : ∃ addr, TOKEN.lookup k2 = some addr ∧ addr ≠ "" := by
      have hcases : k2 = "WMON" ∨ k2 = "MONAI" := by
        simpa [tokenKeys, TOKEN] using hk2mem
      rcases hcases with h | h <;> subst h
      · exact ⟨_, rfl, by decide⟩
      · exact ⟨_, rfl, by decide⟩
    obtain ⟨addr, haddrEq, haddrNe⟩ := haddr2
    refine ⟨k2, addr, hk2, hk2mem, hk2p, haddrEq, haddrNe, ?_⟩
    have ht2 : truthy (some tokenName) = true := by simp [truthy, hne]
    simp [getTokenBalanceInner, haddr, htn, ht2, hk2, haddrEq, haddrNe]
  · intro hno hne
    have hnone : findTokenName tokenName = none := by
      rw [findTokenName, List.find?_eq_none]
      intro x hx
      simpa using hno x hx
    have ht2 : truthy (some tokenName) = true := by simp [truthy, hne]
    simp [getTokenBalanceInner, haddr, htn, ht2, hnone]

/-- Witness for C10: `tokenName: "wmon"` resolves to the registered name
`WMON` and the handler proceeds to query that token's address. -/
theorem token_resolution_case_insensitive_witness :
    findTokenName "wmon" = some "WMON" ∧
    getTokenBalanceInner chain0 ⟨some "0xabc", some "wmon"⟩ none =
      queryTokenBalance chain0 "0x760AfE86e5de5fa0Ee542fc7B7B713e1c5425701"
        ((jsOrStr (some "0xabc") (walletAccountAddress none)).getD "") := by
  obtain ⟨k2, addr, h1, h2, h3, h4, h5, h6⟩ :=
    (token_resolution_case_insensitive chain0 ⟨some "0xabc", some "wmon"⟩ none "wmon" rfl
      (by decide)).1 "WMON" (by decide) (by decide)
  have hk : k2 = "WMON" := by
    have hw : findTokenName "wmon" = some "WMON" := by decide
    rw [hw] at h1
    exact (Option.some_inj.mp h1).symm
  subst hk
  have ha : addr = "0x760AfE86e5de5fa0Ee542fc7B7B713e1c5425701" := by
    have hl : TOKEN.lookup "WMON" = some "0x760AfE86e5de5fa0Ee542fc7B7B713e1c5425701" := by
      decide
    rw [hl] at h4
    exact (Option.some_inj.mp h4).symm
  subst ha
  exact ⟨h1, h6⟩

end MonAI
